import Mathlib

/-!
Verification of the Boxdev-Integrations scripts (four Python programs that
upload/download files between a local filesystem and Box folders).

The remote SDK client is modelled as an oracle environment: each remote call
is recorded as a `BoxOp` event, and injected per-call failure flags model the
exceptions the SDK may raise.  The embeddings below follow the Python sources
line by line; the source file and line ranges are noted on each definition.
-/

/-- A remote folder entry as returned by `get_folder_items(...).entries`:
`{id, name, type}` with `type ∈ {"file", "folder"}`. -/
structure Item where
  id : String
  name : String
  type : String
deriving DecidableEq, Repr

/-- One remote SDK call issued by a script (the network operations of
section 6 of the spec). -/
inductive BoxOp where
  | listItems (folderId : String) (limit : Nat)
  | deleteFile (fileId : String)
  | uploadNew (folderId : String) (name : String)
  | uploadVersion (fileId : String) (name : String)
  | createFolder (name : String) (parentId : String)
  | downloadFile (fileId : String)
deriving DecidableEq, Repr

/-- True exactly for the operations that mutate remote state
(delete, create-new, version-create, folder-create). -/
def BoxOp.isMutation : BoxOp → Bool
  | .listItems _ _ => false
  | .downloadFile _ => false
  | _ => true

/-- The remote mutations contained in a trace of SDK calls. -/
def mutations (t : List BoxOp) : List BoxOp := t.filter BoxOp.isMutation

/-- Oracle for one `upload_zip` call of `box_uploader_jwt.py`:
`listing` is the outcome of the `get_folder_items` call inside `find_file`
(`none` models the call raising), and `deleteOk` tells whether the
`delete_file_by_id` call of the overwrite branch succeeds. -/
structure ZipEnv where
  listing : Option (List Item)
  deleteOk : Bool
deriving Repr

/-- Model of `BoxUploader.find_file` (box_uploader_jwt.py lines 94-111): list the
folder (limit 1000) and return the id of the first entry with
`type == "file"` and the requested name; any listing error is caught and
logged, and the function returns `(False, None)` — here `none`. -/
def find_file (env : ZipEnv) (fname : String) : Option String :=
  match env.listing with
  | none => none
  | some items => (items.find? (fun it => it.type == "file" && it.name == fname)).map Item.id

/-- Model of `BoxUploader.upload_zip` (box_uploader_jwt.py lines 130-179).  Returns
the trace of SDK calls issued together with `true` when an exception
propagated out of the method (only possible at line 143: the overwrite-mode
`delete_file_by_id` call is not wrapped in try/except; the version-create
and create-new branches catch their own failures, so their trace does not
depend on whether they succeed). -/
def upload_zip (env : ZipEnv) (folderId mode fname : String) : List BoxOp × Bool :=
  match find_file env fname with
  | some fid =>
      if mode == "overwrite" then
        -- lines 141-144: delete then fall through to the create-new block
        if env.deleteOk then
          ([BoxOp.listItems folderId 1000, BoxOp.deleteFile fid,
            BoxOp.uploadNew folderId fname], false)
        else
          ([BoxOp.listItems folderId 1000, BoxOp.deleteFile fid], true)
      else if mode == "update" then
        -- lines 147-162: version-create, failure caught, then return
        ([BoxOp.listItems folderId 1000, BoxOp.uploadVersion fid fname], false)
      else if mode == "upload" then
        -- lines 165-167: skip existing file
        ([BoxOp.listItems folderId 1000], false)
      else
        -- lines 170-179: create-new, failure caught
        ([BoxOp.listItems folderId 1000, BoxOp.uploadNew folderId fname], false)
  | none =>
      -- `exists` is false: all three mode guards fail, create-new runs
      ([BoxOp.listItems folderId 1000, BoxOp.uploadNew folderId fname], false)

/-- Model of `BoxUploader.upload_all`, directory case (box_uploader_jwt.py lines
193-202): call `upload_zip` on each `*.zip` child in order.  The loop has no
try/except, so an exception propagating out of `upload_zip` aborts the
batch: the remaining files are never processed.  Returns the per-file traces
of the files actually processed and whether the batch aborted. -/
def upload_all (folderId mode : String) :
    List (String × ZipEnv) → List (String × List BoxOp) × Bool
  | [] => ([], false)
  | (fname, env) :: rest =>
      let r := upload_zip env folderId mode fname
      if r.2 then ([(fname, r.1)], true)
      else
        let rs := upload_all folderId mode rest
        ((fname, r.1) :: rs.1, rs.2)

/-! ### Folder-id extraction (`re.search(r"/folder/(\d+)", url)`)

`BoxDownloader._extract_folder_id` (box_downloader_jwt.py lines 76-89,
box_downloader_token.py lines 226-239) and the inline extraction of
`BoxUploader.__init__` (box_uploader_jwt.py lines 70-73, box_uploader_token.py
lines 53-66).  `re.search` finds the leftmost position where the pattern
matches; the capture group `(\d+)` greedily takes the maximal digit run
following the literal `/folder/`.  `none` models the `ValueError` raised
when there is no match. -/

/-- The literal part of the pattern, `/folder/`, as a character list. -/
def folderLit : List Char := ['/', 'f', 'o', 'l', 'd', 'e', 'r', '/']

/-- Test `startsWithLit p s`: `true` when `p` is an initial segment of `s`. -/
def startsWithLit : List Char → List Char → Bool
  | [], _ => true
  | _ :: _, [] => false
  | p :: ps, c :: cs => p == c && startsWithLit ps cs

/-- Whether a character list starts with a digit (used to state that a
captured digit run is maximal: the remainder must not start with one). -/
def headIsDigit : List Char → Bool
  | [] => false
  | c :: _ => c.isDigit

/-- Match of `/folder/(\d+)` anchored at the head of `s`: requires the
literal `/folder/` followed by at least one digit, and captures the maximal
digit run (greedy `\d+`). -/
def matchFolderAt (s : List Char) : Option (List Char) :=
  if startsWithLit folderLit s then
    let d := (s.drop 8).takeWhile Char.isDigit
    if d.isEmpty then none else some d
  else none

/-- Leftmost search of `/folder/(\d+)`: try the anchored match at every
position from the left, returning the first capture. -/
def searchFolder : List Char → Option (List Char)
  | [] => none
  | c :: rest =>
      match matchFolderAt (c :: rest) with
      | some d => some d
      | none => searchFolder rest

/-- Model of `_extract_folder_id`: the captured digit sequence of the leftmost match
of `/folder/(\d+)` in the URL, or `none` (the `ValueError`). -/
def extract_folder_id (url : String) : Option String :=
  (searchFolder url.data).map List.asString

/-! ### Downloader model (box_downloader_jwt.py / box_downloader_token.py) -/

/-- Model of `BoxDownloader.list_folder_items` (box_downloader_jwt.py lines 91-101,
box_downloader_token.py lines 241-251): one `get_folder_items` call with
`limit=1000` and no pagination.  `children` is the folder's full backend
child list; the backend serves the first page, i.e. at most `limit` entries
in backend order.  Returns the entries and the trace of listing calls. -/
def list_folder_items (folderId : String) (children : List Item) :
    List Item × List BoxOp :=
  (children.take 1000, [BoxOp.listItems folderId 1000])

/-- The suffix/type filter of `download_files` (box_downloader_jwt.py line
114, box_downloader_token.py line 264): `item.type == "file" and
item.name.lower().endswith(extensions)`. -/
def matchesFilter (exts : List String) (it : Item) : Bool :=
  it.type == "file" && exts.any (fun e => it.name.toLower.endsWith e)

/-- The per-item loop of `download_files` (box_downloader_jwt.py lines
113-131, box_downloader_token.py lines 263-280): for each matching item,
attempt one download (the try block); `fails it` injects a failure of that
item's transfer, which is caught and logged, and the loop continues.
Returns the final success counter and the trace of download calls in loop
order. -/
def download_loop (exts : List String) (fails : Item → Bool) :
    List Item → Nat × List BoxOp
  | [] => (0, [])
  | it :: rest =>
      if matchesFilter exts it then
        let r := download_loop exts fails rest
        ((if fails it then 0 else 1) + r.1, BoxOp.downloadFile it.id :: r.2)
      else download_loop exts fails rest

/-- Model of `BoxDownloader.download_files` (box_downloader_jwt.py lines 103-132):
list the folder, then run the per-item loop; prints the counter at the end.
`extensions` defaults to `(".zip", ".isx")` at the call site in `main`. -/
def download_files (folderId : String) (children : List Item)
    (exts : List String) (fails : Item → Bool) : Nat × List BoxOp :=
  let listed := list_folder_items folderId children
  let r := download_loop exts fails listed.1
  (r.1, listed.2 ++ r.2)

/-! ### Recursive directory uploader (box_uploader_token.py)

Local and remote trees are modelled by name (remote ids are abstracted: the
scripts only ever obtain an id by scanning a listing for the first entry
with a given name, so "the folder with id returned for name n" is "the
first folder child named n").  Remote folder contents are kept in listing
order; a created entry is appended at the end. -/

/-- A local directory entry as enumerated by `os.scandir`: a plain file or
a subdirectory with its own entries. -/
inductive LEntry where
  | file : String → LEntry
  | dir : String → List LEntry → LEntry

/-- A remote folder entry: a file or a folder with its child entries. -/
inductive REntry where
  | file : String → REntry
  | folder : String → List REntry → REntry

/-- Whether a remote entry is a folder named `n` (the scan condition of
`_create_folder`, box_uploader_token.py line 82: `item.type == "folder" and
item.name == name`). -/
def isFolderNamed (n : String) : REntry → Bool
  | REntry.folder m _ => m == n
  | REntry.file _ => false

/-- Whether the remote listing has a folder child named `n`. -/
def containsFolder (r : List REntry) (n : String) : Bool :=
  r.any (isFolderNamed n)

/-- Children of the first folder child named `n` (the folder whose id
`_create_folder` returns when it finds a match). -/
def getFolderChildren (r : List REntry) (n : String) : List REntry :=
  match r.find? (isFolderNamed n) with
  | some (REntry.folder _ cs) => cs
  | _ => []

/-- Replace the children of the first folder child named `n`. -/
def setFolderChildren : List REntry → String → List REntry → List REntry
  | [], _, _ => []
  | REntry.folder m k :: rest, n, cs =>
      if m == n then REntry.folder m cs :: rest
      else REntry.folder m k :: setFolderChildren rest n cs
  | e :: rest, n, cs => e :: setFolderChildren rest n cs

/-- Model of `BoxUploader._create_folder` (box_uploader_token.py lines 68-89) at the
tree level: scan the parent's children for a folder named `n`; reuse it if
present, else create it (new empty folder, appended). -/
def ensureFolder (r : List REntry) (n : String) : List REntry :=
  if containsFolder r n then r else r ++ [REntry.folder n []]

/-- Model of `BoxUploader.upload_directory` (box_uploader_token.py lines 91-123) on
the failure-free run: process the local entries in `os.scandir` order; a
file is uploaded into the current remote parent (appended); a subdirectory
is resolved-or-created via `_create_folder` and then recursed into, with
the resolved remote folder as the new parent. -/
def uploadEntries : List LEntry → List REntry → List REntry
  | [], r => r
  | LEntry.file n :: rest, r => uploadEntries rest (r ++ [REntry.file n])
  | LEntry.dir n cs :: rest, r =>
      let r1 := ensureFolder r n
      uploadEntries rest (setFolderChildren r1 n (uploadEntries cs (getFolderChildren r1 n)))

mutual
/-- The structural mirror of a local tree: the remote shape that a full
upload of the tree into an empty folder should produce. -/
def mirrorEntry : LEntry → REntry
  | LEntry.file n => REntry.file n
  | LEntry.dir n cs => REntry.folder n (mirrorList cs)

/-- The structural mirror of a list of local entries. -/
def mirrorList : List LEntry → List REntry
  | [] => []
  | e :: rest => mirrorEntry e :: mirrorList rest
end

/-- Whether some entry of `es` is a subdirectory named `n`. -/
def hasDirNamed (es : List LEntry) (n : String) : Bool :=
  es.any (fun e => match e with | LEntry.dir m _ => m == n | _ => false)

/-- Well-formedness of a local tree as guaranteed by a real filesystem:
at each level, subdirectory names are pairwise distinct. -/
def wfList : List LEntry → Bool
  | [] => true
  | LEntry.file _ :: rest => wfList rest
  | LEntry.dir n cs :: rest => !(hasDirNamed rest n) && wfList cs && wfList rest

/-- No top-level subdirectory of `es` shares its name with an existing
remote folder child of `r` (no resolve-or-create collision at this level). -/
def noFolderClash (es : List LEntry) (r : List REntry) : Bool :=
  es.all (fun e => match e with
    | LEntry.dir m _ => !(containsFolder r m)
    | LEntry.file _ => true)

/-! ### Script entry points and constructors -/

/-- Python truthiness of an `os.getenv` result: `None` (unset) and the
empty string are falsy (`if not config_path: ...`). -/
def truthy : Option String → Bool
  | none => false
  | some s => !(s == "")

/-- Model of `os.makedirs(dir, exist_ok=True)` on a flat model of the local
filesystem as the list of existing directories. -/
def makedirs (fs : List String) (dir : String) : List String :=
  if fs.contains dir then fs else dir :: fs

/-- Model of `BoxDownloader.__init__` up to client construction (box_downloader_jwt.py
lines 40-49, box_downloader_token.py lines 211-224): first create the
download directory (`os.makedirs(..., exist_ok=True)`), then extract the
folder id from the URL (raising `ValueError`, here `none`, on no match).
The client is built only after a successful extraction. -/
def downloader_init (fs : List String) (url downloadDir : String) :
    List String × Option String :=
  let fs1 := makedirs fs downloadDir
  (fs1, extract_folder_id url)

/-- Oracle for one downloader run: `children` is the backend child list of
the target folder (`none` models the listing call itself raising), and
`fails` injects per-item transfer failures. -/
structure RemoteEnv where
  children : Option (List Item)
  fails : Item → Bool

/-- The body of the downloader `main` try-block after construction
(box_downloader_token.py lines 309-314): run `download_files` with the
default extensions; an uncaught exception (a raising listing call) is
caught in `main` and turns into exit code 1.  Returns the exit code and
the trace of remote calls. -/
def downloader_run (folderId : String) (env : RemoteEnv) : Nat × List BoxOp :=
  match env.children with
  | none => (1, [BoxOp.listItems folderId 1000])
  | some cs => (0, (download_files folderId cs [".zip", ".isx"] env.fails).2)

/-- Model of `main` of box_downloader_token.py (lines 285-314): read the three
environment variables, print a hint and exit 1 when one is falsy; else
construct the downloader (directory creation, URL extraction, client) and
download.  Result: (exit code, client constructed?, remote calls issued,
final local directory set). -/
def downloader_token_main (tok url dir : Option String) (fs : List String)
    (env : RemoteEnv) : Nat × Bool × List BoxOp × List String :=
  if truthy tok = false then (1, false, [], fs)
  else if truthy url = false then (1, false, [], fs)
  else if truthy dir = false then (1, false, [], fs)
  else
    let ini := downloader_init fs (url.getD "") (dir.getD "")
    match ini.2 with
    | none => (1, false, [], ini.1)
    | some fid =>
        let r := downloader_run fid env
        (r.1, true, r.2, ini.1)

/-- The local path handed to the token uploader: missing, a single file, or
a directory tree. -/
inductive LocalPath where
  | missing
  | file : String → LocalPath
  | directory : List LEntry → LocalPath

/-- Model of `main` of box_uploader_token.py (lines 157-186): read the three
environment variables, print a hint and exit 1 when one is falsy; else
`BoxUploader.__init__` checks the local path exists (raising `ValueError`,
caught by `main`, exit 1), extracts the folder id (same), builds the client;
then `upload_all` uploads the single file or recursively mirrors the
directory (failure-free run).  Result: (exit code, client constructed?,
final remote folder contents). -/
def uploader_token_main (tok url dir : Option String) (localPath : LocalPath)
    (remote : List REntry) : Nat × Bool × List REntry :=
  if truthy tok = false then (1, false, remote)
  else if truthy url = false then (1, false, remote)
  else if truthy dir = false then (1, false, remote)
  else
    match localPath with
    | LocalPath.missing => (1, false, remote)
    | LocalPath.file n =>
        match extract_folder_id (url.getD "") with
        | none => (1, false, remote)
        | some _ => (0, true, remote ++ [REntry.file n])
    | LocalPath.directory es =>
        match extract_folder_id (url.getD "") with
        | none => (1, false, remote)
        | some _ => (0, true, uploadEntries es remote)

/-! ## Theorems -/

/-- C8: for every folder id, the folder lister issues exactly one listing
call with a fixed limit of 1000 entries and returns the backend's entries
unchanged and in backend order (the 1000-prefix, no client-side sorting, no
pagination); hence a folder with more than 1000 direct children yields a
silently incomplete list (a prefix of at most 1000 entries). -/
theorem list_folder_items_single_page (folderId : String) (children : List Item) :
    (list_folder_items folderId children).2 = [BoxOp.listItems folderId 1000] ∧
    (list_folder_items folderId children).1 = children.take 1000 ∧
    (list_folder_items folderId children).1.length = min 1000 children.length ∧
    (1000 < children.length →
      (list_folder_items folderId children).1.length < children.length ∧
      (list_folder_items folderId children).1 ≠ children) := by
  refine ⟨rfl, rfl, ?_, fun h => ⟨?_, ?_⟩⟩
  · show (children.take 1000).length = min 1000 children.length
    rw [List.length_take]
  · show (children.take 1000).length < children.length
    rw [List.length_take]
    omega
  · intro hc
    have hlen : (children.take 1000).length = children.length := congrArg List.length hc
    rw [List.length_take] at hlen
    omega

/-- C8 witness: a folder with 1001 direct children yields a strictly
shorter (incomplete) listing. -/
theorem list_folder_items_single_page_witness :
    (list_folder_items "0" (List.replicate 1001 (Item.mk "i" "n" "file"))).1.length <
      (List.replicate 1001 (Item.mk "i" "n" "file")).length ∧
    (list_folder_items "0" (List.replicate 1001 (Item.mk "i" "n" "file"))).1 ≠
      List.replicate 1001 (Item.mk "i" "n" "file") :=
  (list_folder_items_single_page "0" _).2.2.2 (by rw [List.length_replicate]; omega)

/-- C10: the downloader constructor creates the download directory before it
validates the folder URL, so with a URL not containing the pattern the
constructor fails (raises) but the download directory has already been
created: the fatal-error path is not free of local filesystem side
effects. -/
theorem downloader_init_creates_dir_before_url_check
    (fs : List String) (url downloadDir : String)
    (h : extract_folder_id url = none) :
    (downloader_init fs url downloadDir).2 = none ∧
    (downloader_init fs url downloadDir).1.contains downloadDir = true := by
  refine ⟨by simp [downloader_init, h], ?_⟩
  unfold downloader_init makedirs
  split
  · assumption
  · simp [List.contains_cons]

/-- C10 witness: a concrete invalid URL leaves the created directory behind. -/
theorem downloader_init_creates_dir_before_url_check_witness :
    (downloader_init [] "not-a-folder-url" "dl").2 = none ∧
    (downloader_init [] "not-a-folder-url" "dl").1.contains "dl" = true :=
  downloader_init_creates_dir_before_url_check [] "not-a-folder-url" "dl" (by decide)

/-- C7: for every environment in which a required environment variable is
missing (falsy), both token scripts exit with status 1 before any network
call: the client is never constructed, no remote operation is issued, and
(uploader) the remote folder is untouched. -/
theorem main_missing_env_var_exits_one :
    (∀ (tok url dir : Option String) (fs : List String) (env : RemoteEnv),
      (truthy tok = false ∨ truthy url = false ∨ truthy dir = false) →
      downloader_token_main tok url dir fs env = (1, false, [], fs)) ∧
    (∀ (tok url dir : Option String) (lp : LocalPath) (remote : List REntry),
      (truthy tok = false ∨ truthy url = false ∨ truthy dir = false) →
      uploader_token_main tok url dir lp remote = (1, false, remote)) := by
  constructor
  · intro tok url dir fs env h
    cases htok : truthy tok <;> cases hurl : truthy url <;> cases hdir : truthy dir <;>
      simp_all [downloader_token_main]
  · intro tok url dir lp remote h
    cases htok : truthy tok <;> cases hurl : truthy url <;> cases hdir : truthy dir <;>
      simp_all [uploader_token_main]

/-- C7 witness: with the token variable unset, both scripts exit 1 with no
client and no remote operation. -/
theorem main_missing_env_var_exits_one_witness :
    downloader_token_main none (some "https://b.com/folder/1") (some "dl") []
      (RemoteEnv.mk none (fun _ => false)) = (1, false, [], []) ∧
    uploader_token_main none (some "https://b.com/folder/1") (some "up")
      (LocalPath.file "a.txt") [] = (1, false, []) :=
  ⟨main_missing_env_var_exits_one.1 none (some "https://b.com/folder/1") (some "dl") []
      (RemoteEnv.mk none (fun _ => false)) (Or.inl rfl),
   main_missing_env_var_exits_one.2 none (some "https://b.com/folder/1") (some "up")
      (LocalPath.file "a.txt") [] (Or.inl rfl)⟩

/-- C4: over any listing, the download engine attempts exactly one transfer
per item matching the type/suffix filter (in listing order, no abort: an
item's injected failure is caught and the loop continues), and the printed
success count is the number of matching items minus the number of matching
items whose transfer failed; `download_files` is this loop over the single
1000-entry listing page. -/
theorem download_files_attempts_and_count (exts : List String) (fails : Item → Bool)
    (items : List Item) :
    (download_loop exts fails items).2 =
      (items.filter (matchesFilter exts)).map (fun it => BoxOp.downloadFile it.id) ∧
    (items.filter (fun it => matchesFilter exts it && fails it)).length ≤
      (items.filter (matchesFilter exts)).length ∧
    (download_loop exts fails items).1 =
      (items.filter (matchesFilter exts)).length -
        (items.filter (fun it => matchesFilter exts it && fails it)).length ∧
    (∀ (folderId : String) (children : List Item),
      download_files folderId children exts fails =
        ((download_loop exts fails (children.take 1000)).1,
          BoxOp.listItems folderId 1000 :: (download_loop exts fails (children.take 1000)).2)) := by
  have key : ∀ l : List Item,
      (download_loop exts fails l).2 =
        (l.filter (matchesFilter exts)).map (fun it => BoxOp.downloadFile it.id) ∧
      (l.filter (fun it => matchesFilter exts it && fails it)).length ≤
        (l.filter (matchesFilter exts)).length ∧
      (download_loop exts fails l).1 =
        (l.filter (matchesFilter exts)).length -
          (l.filter (fun it => matchesFilter exts it && fails it)).length := by
    intro l
    induction l with
    | nil => simp [download_loop]
    | cons it rest ih =>
        obtain ⟨ih1, ih2, ih3⟩ := ih
        cases hm : matchesFilter exts it <;> cases hf : fails it <;>
          simp [download_loop, hm, hf, List.filter_cons, ih1, ih3] <;> omega
  exact ⟨(key items).1, (key items).2.1, (key items).2.2, fun _ _ => rfl⟩

/-- C1: per target file name and pre-existing status as reported by the
existence check (with the overwrite delete succeeding): mode "upload" never
issues a delete or a mutation of an existing remote file (skip on exists,
create-new otherwise); mode "overwrite" on a pre-existing file issues
exactly one delete of that file's id followed by exactly one create; mode
"update" on a pre-existing file issues no delete and exactly one
version-create against the existing id; in every mode, with no pre-existing
file exactly one create-new is issued. -/
theorem upload_zip_mode_actions (env : ZipEnv) (folderId fname : String)
    (hdel : env.deleteOk = true) :
    (∀ fid, find_file env fname = some fid →
      (upload_zip env folderId "upload" fname).1 = [BoxOp.listItems folderId 1000] ∧
      mutations (upload_zip env folderId "upload" fname).1 = [] ∧
      mutations (upload_zip env folderId "overwrite" fname).1 =
        [BoxOp.deleteFile fid, BoxOp.uploadNew folderId fname] ∧
      mutations (upload_zip env folderId "update" fname).1 =
        [BoxOp.uploadVersion fid fname]) ∧
    (find_file env fname = none →
      ∀ mode, mutations (upload_zip env folderId mode fname).1 =
        [BoxOp.uploadNew folderId fname]) := by
  constructor
  · intro fid hfid
    refine ⟨?_, ?_, ?_, ?_⟩ <;>
      simp [upload_zip, hfid, hdel, mutations, BoxOp.isMutation]
  · intro hn mode
    simp [upload_zip, hn, mutations, BoxOp.isMutation]

/-- C1 witness: a pre-existing "a.zip" (id 9) is deleted then re-created in
overwrite mode; an absent "b.zip" is created-new in update mode. -/
theorem upload_zip_mode_actions_witness :
    mutations (upload_zip (ZipEnv.mk (some [Item.mk "9" "a.zip" "file"]) true)
        "0" "overwrite" "a.zip").1 =
      [BoxOp.deleteFile "9", BoxOp.uploadNew "0" "a.zip"] ∧
    mutations (upload_zip (ZipEnv.mk none true) "0" "update" "b.zip").1 =
      [BoxOp.uploadNew "0" "b.zip"] :=
  ⟨((upload_zip_mode_actions (ZipEnv.mk (some [Item.mk "9" "a.zip" "file"]) true)
      "0" "a.zip" rfl).1 "9" rfl).2.2.1,
   (upload_zip_mode_actions (ZipEnv.mk none true) "0" "b.zip" rfl).2 rfl "update"⟩

/-- C9: when the existence check's listing call raises, the error is caught
and the check returns "not found" (`(False, None)`), indistinguishable from
an absent file: in every mode the file is then treated as new — the run
behaves exactly as over an empty folder, a single create-new upload is
attempted (not skipped in mode "upload", no version-create in mode
"update"), and nothing propagates. -/
theorem find_file_error_treated_as_new (env : ZipEnv) (folderId fname mode : String)
    (h : env.listing = none) :
    find_file env fname = none ∧
    upload_zip env folderId mode fname =
      upload_zip (ZipEnv.mk (some []) env.deleteOk) folderId mode fname ∧
    (upload_zip env folderId mode fname).1 =
      [BoxOp.listItems folderId 1000, BoxOp.uploadNew folderId fname] ∧
    (upload_zip env folderId mode fname).2 = false := by
  have hf : find_file env fname = none := by simp [find_file, h]
  refine ⟨hf, ?_, ?_, ?_⟩ <;> simp [upload_zip, find_file, h]

/-- C9 witness: with a raising listing call, "a.zip" is uploaded as new in
mode "update". -/
theorem find_file_error_treated_as_new_witness :
    find_file (ZipEnv.mk none true) "a.zip" = none ∧
    (upload_zip (ZipEnv.mk none true) "0" "update" "a.zip").1 =
      [BoxOp.listItems "0" 1000, BoxOp.uploadNew "0" "a.zip"] :=
  ⟨(find_file_error_treated_as_new (ZipEnv.mk none true) "0" "a.zip" "update" rfl).1,
   (find_file_error_treated_as_new (ZipEnv.mk none true) "0" "a.zip" "update" rfl).2.2.1⟩

/-- In mode "upload" a file reported as existing is skipped: only the
listing call is issued and nothing propagates (box_uploader_jwt.py lines
164-167). -/
theorem upload_zip_upload_skips (env : ZipEnv) (folderId fname fid : String)
    (h : find_file env fname = some fid) :
    upload_zip env folderId "upload" fname = ([BoxOp.listItems folderId 1000], false) := by
  simp [upload_zip, h]

/-- C5: re-running an "upload"-mode batch whose files all pre-exist (per the
existence check) performs zero deletes and zero creates: every file is
processed, each issuing only its existence-check listing call (skip), so
the remote folder is unchanged. -/
theorem upload_mode_batch_idempotent (folderId : String)
    (batch : List (String × ZipEnv))
    (h : ∀ p ∈ batch, (find_file p.2 p.1).isSome = true) :
    (upload_all folderId "upload" batch).2 = false ∧
    (upload_all folderId "upload" batch).1.map Prod.fst = batch.map Prod.fst ∧
    ∀ q ∈ (upload_all folderId "upload" batch).1,
      q.2 = [BoxOp.listItems folderId 1000] ∧ mutations q.2 = [] := by
  induction batch with
  | nil => simp [upload_all]
  | cons p rest ih =>
      obtain ⟨fname, env⟩ := p
      obtain ⟨fid, hfid⟩ := Option.isSome_iff_exists.mp (h (fname, env) (by simp))
      have hz := upload_zip_upload_skips env folderId fname fid hfid
      obtain ⟨i1, i2, i3⟩ := ih (fun q hq => h q (by simp [hq]))
      refine ⟨by simp [upload_all, hz, i1], by simp [upload_all, hz, i2], ?_⟩
      intro q hq
      simp [upload_all, hz] at hq
      rcases hq with hq | hq
      · simp [hq, mutations, BoxOp.isMutation]
      · exact i3 q hq

/-- C5 witness: a one-file batch whose file pre-exists is fully skipped. -/
theorem upload_mode_batch_idempotent_witness :
    (upload_all "0" "upload"
        [("a.zip", ZipEnv.mk (some [Item.mk "9" "a.zip" "file"]) true)]).2 = false ∧
    (upload_all "0" "upload"
        [("a.zip", ZipEnv.mk (some [Item.mk "9" "a.zip" "file"]) true)]).1.map Prod.fst =
      ["a.zip"] :=
  ⟨(upload_mode_batch_idempotent "0" _ (by intro p hp; simp at hp; subst hp; rfl)).1,
   (upload_mode_batch_idempotent "0" _ (by intro p hp; simp at hp; subst hp; rfl)).2.1⟩

/-- C2 counterexample: in mode "overwrite", the delete of a pre-existing
"a.zip" is not wrapped in try/except (box_uploader_jwt.py line 143); when
it fails, the exception propagates out of `upload_zip` and the batch loop
stops: "b.zip" is never processed. -/
theorem upload_batch_abort_counterexample :
    (upload_all "0" "overwrite"
        [("a.zip", ZipEnv.mk (some [Item.mk "9" "a.zip" "file"]) false),
         ("b.zip", ZipEnv.mk (some []) true)]).1.map Prod.fst = ["a.zip"] ∧
    (upload_all "0" "overwrite"
        [("a.zip", ZipEnv.mk (some [Item.mk "9" "a.zip" "file"]) false),
         ("b.zip", ZipEnv.mk (some []) true)]).2 = true :=
  ⟨rfl, rfl⟩

/-- C2 (amended): in the upload batch, the existence check, the
version-create and the create-new branches each catch and log their own
failure, so `upload_zip` never propagates an exception unless the
overwrite-mode delete fails; provided no delete fails, every file of the
batch is processed and the batch never aborts. -/
theorem upload_batch_contains_item_failures :
    (∀ (env : ZipEnv) (folderId mode fname : String), env.deleteOk = true →
      (upload_zip env folderId mode fname).2 = false) ∧
    (∀ (folderId mode : String) (batch : List (String × ZipEnv)),
      (∀ p ∈ batch, p.2.deleteOk = true) →
      (upload_all folderId mode batch).2 = false ∧
      (upload_all folderId mode batch).1.map Prod.fst = batch.map Prod.fst) := by
  have hz : ∀ (env : ZipEnv) (folderId mode fname : String), env.deleteOk = true →
      (upload_zip env folderId mode fname).2 = false := by
    intro env folderId mode fname hdel
    unfold upload_zip
    cases hf : find_file env fname <;> simp [hdel, apply_ite Prod.snd]
  refine ⟨hz, ?_⟩
  intro folderId mode batch h
  induction batch with
  | nil => simp [upload_all]
  | cons p rest ih =>
      obtain ⟨fname, env⟩ := p
      have hp := hz env folderId mode fname (h (fname, env) (by simp))
      obtain ⟨i1, i2⟩ := ih (fun q hq => h q (by simp [hq]))
      constructor
      · simp [upload_all, hp, i1]
      · simp [upload_all, hp, i2]

/-- C2 (amended) witness: a two-file overwrite batch with succeeding deletes
processes both files and does not abort. -/
theorem upload_batch_contains_item_failures_witness :
    (upload_all "0" "overwrite"
        [("a.zip", ZipEnv.mk (some [Item.mk "9" "a.zip" "file"]) true),
         ("b.zip", ZipEnv.mk none true)]).2 = false ∧
    (upload_all "0" "overwrite"
        [("a.zip", ZipEnv.mk (some [Item.mk "9" "a.zip" "file"]) true),
         ("b.zip", ZipEnv.mk none true)]).1.map Prod.fst = ["a.zip", "b.zip"] :=
  upload_batch_contains_item_failures.2 "0" "overwrite" _
    (by intro p hp; simp at hp; rcases hp with hp | hp <;> subst hp <;> rfl)

/-- The anchored pattern match fails on the empty string. -/
theorem matchFolderAt_nil : matchFolderAt [] = none := rfl

/-- A digit run followed by a non-digit boundary is exactly what the greedy
`\d+` capture takes. -/
theorem takeWhile_digit_run (d rest : List Char) (hd : d.all Char.isDigit = true)
    (hr : headIsDigit rest = false) :
    (d ++ rest).takeWhile Char.isDigit = d := by
  induction d with
  | nil =>
      cases rest with
      | nil => rfl
      | cons c cs =>
          simp [headIsDigit] at hr
          simp [List.takeWhile_cons, hr]
  | cons c cs ih =>
      rw [List.all_cons, Bool.and_eq_true] at hd
      simp [List.takeWhile_cons, hd.1, ih hd.2]

/-- Characterisation of the anchored match on a decomposed input: the
literal `/folder/`, a nonempty all-digit run, and a remainder not starting
with a digit yield exactly that digit run as the capture. -/
theorem matchFolderAt_pattern (c : Char) (cs rest : List Char)
    (hd : (c :: cs).all Char.isDigit = true) (hr : headIsDigit rest = false) :
    matchFolderAt (folderLit ++ ((c :: cs) ++ rest)) = some (c :: cs) := by
  have ht := takeWhile_digit_run (c :: cs) rest hd hr
  simp only [matchFolderAt,
    show startsWithLit folderLit (folderLit ++ ((c :: cs) ++ rest)) = true from rfl,
    show (folderLit ++ ((c :: cs) ++ rest)).drop 8 = (c :: cs) ++ rest from rfl,
    if_true, ht]
  simp

/-- Lemma: `searchFolder` returns the capture of the leftmost matching position:
if no position before `i` matches and position `i` captures `d`, the search
returns `d`. -/
theorem searchFolder_leftmost (i : Nat) (u d : List Char)
    (hnone : ∀ j, j < i → matchFolderAt (u.drop j) = none)
    (hmatch : matchFolderAt (u.drop i) = some d) :
    searchFolder u = some d := by
  induction i generalizing u with
  | zero =>
      cases u with
      | nil => simp [List.drop_nil, matchFolderAt_nil] at hmatch
      | cons c rest =>
          rw [List.drop_zero] at hmatch
          simp [searchFolder, hmatch]
  | succ i ih =>
      cases u with
      | nil => simp [List.drop_nil, matchFolderAt_nil] at hmatch
      | cons c rest =>
          have h0 : matchFolderAt (c :: rest) = none := by
            have := hnone 0 (Nat.succ_pos i)
            rwa [List.drop_zero] at this
          have hrec := ih rest
            (fun j hj => by
              have := hnone (j + 1) (Nat.succ_lt_succ hj)
              rwa [List.drop_succ_cons] at this)
            (by rwa [List.drop_succ_cons] at hmatch)
          simp [searchFolder, h0, hrec]

/-- When no position of the input matches the pattern, the search fails. -/
theorem searchFolder_no_match (u : List Char)
    (h : ∀ j, j < u.length → matchFolderAt (u.drop j) = none) :
    searchFolder u = none := by
  induction u with
  | nil => rfl
  | cons c rest ih =>
      have h0 : matchFolderAt (c :: rest) = none := by
        have := h 0 (by simp)
        rwa [List.drop_zero] at this
      have hr := ih (fun j hj => by
        have := h (j + 1) (by simpa using Nat.succ_lt_succ hj)
        rwa [List.drop_succ_cons] at this)
      simp [searchFolder, h0, hr]

/-- C3: the folder-id extractor returns exactly the first captured digit
sequence after the first occurrence of `/folder/<digits>` in the URL; on a
URL with no such occurrence it fails (`ValueError`); and that failure is
fatal: it happens in the constructor before the client is built, so no
remote call is ever issued. -/
theorem extract_folder_id_first_match :
    (∀ (url : String) (i : Nat) (d rest : List Char),
      d ≠ [] → d.all Char.isDigit = true → headIsDigit rest = false →
      (∀ j, j < i → matchFolderAt (url.data.drop j) = none) →
      url.data.drop i = folderLit ++ (d ++ rest) →
      extract_folder_id url = some d.asString) ∧
    (∀ url : String,
      (∀ j, j < url.data.length → matchFolderAt (url.data.drop j) = none) →
      extract_folder_id url = none) ∧
    (∀ (tok url dir : Option String) (fs : List String) (env : RemoteEnv),
      extract_folder_id (url.getD "") = none →
      (downloader_token_main tok url dir fs env).2.2.1 = [] ∧
      (downloader_token_main tok url dir fs env).2.1 = false) := by
  refine ⟨?_, ?_, ?_⟩
  · intro url i d rest hne hd hr hnone hdrop
    cases d with
    | nil => exact absurd rfl hne
    | cons c cs =>
        have hm : matchFolderAt (url.data.drop i) = some (c :: cs) := by
          rw [hdrop]
          exact matchFolderAt_pattern c cs rest hd hr
        simp [extract_folder_id, searchFolder_leftmost i url.data (c :: cs) hnone hm]
  · intro url h
    simp [extract_folder_id, searchFolder_no_match url.data h]
  · intro tok url dir fs env hext
    by_cases h1 : truthy tok = false
    · simp [downloader_token_main, h1]
    · by_cases h2 : truthy url = false
      · simp [downloader_token_main, h1, h2]
      · by_cases h3 : truthy dir = false
        · simp [downloader_token_main, h1, h2, h3]
        · simp [downloader_token_main, h1, h2, h3, downloader_init, hext]

/-- C3 witness: the first `/folder/` of `a/folder/x/folder/12` is not
followed by a digit, so the extractor returns the capture of the second
occurrence, "12"; a URL without the pattern fails, and the failing
constructor issues no remote call. -/
theorem extract_folder_id_first_match_witness :
    extract_folder_id "a/folder/x/folder/12" = some "12" ∧
    extract_folder_id "nope" = none ∧
    (downloader_token_main (some "t") (some "nope") (some "dl") []
        (RemoteEnv.mk none (fun _ => false))).2.2.1 = [] := by
  refine ⟨?_, ?_, ?_⟩
  · have h := extract_folder_id_first_match.1 "a/folder/x/folder/12" 10 ['1', '2'] []
      (by decide) (by decide) rfl (by decide) (by decide)
    rw [h]
    decide
  · exact extract_folder_id_first_match.2.1 "nope" (by decide)
  · exact (extract_folder_id_first_match.2.2 (some "t") (some "nope") (some "dl") []
      (RemoteEnv.mk none (fun _ => false))
      (extract_folder_id_first_match.2.1 "nope" (by decide))).1

/-- Appending to a remote listing distributes over the folder-name scan. -/
theorem containsFolder_append (r s : List REntry) (n : String) :
    containsFolder (r ++ s) n = (containsFolder r n || containsFolder s n) := by
  simp [containsFolder, List.any_append]

/-- Uploading a file into a remote folder does not change which folder
children it has. -/
theorem containsFolder_append_file (r : List REntry) (x n : String) :
    containsFolder (r ++ [REntry.file x]) n = containsFolder r n := by
  simp [containsFolder, List.any_append, isFolderNamed]

/-- When no folder child is named `n`, the linear scan finds nothing. -/
theorem contains_false_find_none (r : List REntry) (n : String)
    (h : containsFolder r n = false) : r.find? (isFolderNamed n) = none := by
  apply List.find?_eq_none.mpr
  intro x hx hpx
  have h2 : containsFolder r n = true := List.any_eq_true.mpr ⟨x, hx, hpx⟩
  rw [h] at h2
  cases h2

/-- A scan that fails on the first segment continues into the second. -/
theorem find_append_of_none {α : Type} (p : α → Bool) (l1 l2 : List α)
    (h : l1.find? p = none) : (l1 ++ l2).find? p = l2.find? p := by
  induction l1 with
  | nil => simp
  | cons a l ih =>
      cases hpa : p a
      · have h2 : l.find? p = none := by
          rwa [List.find?_cons_of_neg _ (by simp [hpa])] at h
        rw [List.cons_append, List.find?_cons_of_neg _ (by simp [hpa]), ih h2]
      · rw [List.find?_cons_of_pos _ hpa] at h
        cases h

/-- Resolving the folder just created at the end of the listing (no earlier
folder child has that name) yields its children. -/
theorem getFolderChildren_append_new (r : List REntry) (n : String) (k : List REntry)
    (h : containsFolder r n = false) :
    getFolderChildren (r ++ [REntry.folder n k]) n = k := by
  unfold getFolderChildren
  rw [find_append_of_none _ _ _ (contains_false_find_none r n h)]
  rw [List.find?_cons_of_pos _ (by simp [isFolderNamed])]

/-- Replacing the children of the folder just created at the end of the
listing rewrites exactly that last entry. -/
theorem setFolderChildren_append_new (r : List REntry) (n : String) (k cs : List REntry)
    (h : containsFolder r n = false) :
    setFolderChildren (r ++ [REntry.folder n k]) n cs = r ++ [REntry.folder n cs] := by
  induction r with
  | nil => simp [setFolderChildren]
  | cons e r ih =>
      have h2 := h
      rw [show containsFolder (e :: r) n = (isFolderNamed n e || containsFolder r n) from by
            simp [containsFolder, List.any_cons],
          Bool.or_eq_false_iff] at h2
      obtain ⟨he, hr⟩ := h2
      cases e with
      | file m => simp [setFolderChildren, ih hr]
      | folder m k0 =>
          have hmn : (m == n) = false := by simpa [isFolderNamed] using he
          simp [setFolderChildren, hmn, ih hr]

/-- The clash-freedom predicate, membership form. -/
theorem noFolderClash_iff (es : List LEntry) (r : List REntry) :
    noFolderClash es r = true ↔
      ∀ m cs, LEntry.dir m cs ∈ es → containsFolder r m = false := by
  unfold noFolderClash
  rw [List.all_eq_true]
  constructor
  · intro h m cs hmem
    have := h _ hmem
    simpa using this
  · intro h e hmem
    cases e with
    | file m => rfl
    | dir m cs => simpa using h m cs hmem

/-- Absence of a duplicate subdirectory name, membership form. -/
theorem hasDirNamed_false_iff (es : List LEntry) (n : String) :
    hasDirNamed es n = false ↔
      ∀ m cs, LEntry.dir m cs ∈ es → (m == n) = false := by
  constructor
  · intro h m cs hmem
    cases hmn : (m == n)
    · rfl
    · have h2 : hasDirNamed es n = true :=
        List.any_eq_true.mpr ⟨_, hmem, by simpa using hmn⟩
      rw [h] at h2
      cases h2
  · intro h
    by_contra hne
    rw [Bool.not_eq_false] at hne
    obtain ⟨e, hmem, hpe⟩ := List.any_eq_true.mp hne
    cases e with
    | file m => cases hpe
    | dir m cs =>
        have hpe2 : (m == n) = true := hpe
        rw [h m cs hmem] at hpe2
        cases hpe2

/-- Every upload target is clash-free when the remote folder is empty. -/
theorem noFolderClash_nil (es : List LEntry) : noFolderClash es [] = true :=
  (noFolderClash_iff es []).mpr (fun _ _ _ => rfl)

/-- Recursive upload into a clash-free remote folder appends exactly the
structural mirror of the local entries (the local levels have distinct
subdirectory names, as a filesystem guarantees). -/
theorem uploadEntries_clash_free (es : List LEntry) (r : List REntry) :
    wfList es = true → noFolderClash es r = true →
    uploadEntries es r = r ++ mirrorList es := by
  induction es, r using uploadEntries.induct with
  | case1 r =>
      intro _ _
      simp [uploadEntries, mirrorList]
  | case2 n rest r ih =>
      intro hwf hcl
      have hwf2 : wfList rest = true := by simpa [wfList] using hwf
      have hclrest : noFolderClash rest r = true := by
        rw [noFolderClash_iff] at hcl ⊢
        exact fun m cs hmem => hcl m cs (List.mem_cons_of_mem _ hmem)
      have hcl2 : noFolderClash rest (r ++ [REntry.file n]) = true := by
        rw [noFolderClash_iff] at hclrest ⊢
        intro m cs hmem
        rw [containsFolder_append_file]
        exact hclrest m cs hmem
      rw [show uploadEntries (LEntry.file n :: rest) r =
            uploadEntries rest (r ++ [REntry.file n]) from by simp [uploadEntries]]
      rw [ih hwf2 hcl2]
      simp [mirrorList, mirrorEntry]
  | case3 n cs rest r r1 ihcsA ihcsB ihrest =>
      intro hwf hcl
      have ihcs3 : wfList cs = true →
          noFolderClash cs (getFolderChildren (ensureFolder r n) n) = true →
          uploadEntries cs (getFolderChildren (ensureFolder r n) n) =
            getFolderChildren (ensureFolder r n) n ++ mirrorList cs := ihcsB
      have ihrest3 : wfList rest = true →
          noFolderClash rest (setFolderChildren (ensureFolder r n) n
            (uploadEntries cs (getFolderChildren (ensureFolder r n) n))) = true →
          uploadEntries rest (setFolderChildren (ensureFolder r n) n
            (uploadEntries cs (getFolderChildren (ensureFolder r n) n))) =
            setFolderChildren (ensureFolder r n) n
              (uploadEntries cs (getFolderChildren (ensureFolder r n) n)) ++
              mirrorList rest := ihrest
      have hwf3 : hasDirNamed rest n = false ∧ wfList cs = true ∧ wfList rest = true := by
        have h := hwf
        simp only [wfList, Bool.and_eq_true, Bool.not_eq_true'] at h
        exact ⟨h.1.1, h.1.2, h.2⟩
      obtain ⟨hdup, hwfcs, hwfrest⟩ := hwf3
      have hcl1 : containsFolder r n = false :=
        (noFolderClash_iff _ _).mp hcl n cs (by simp)
      have hclrest : noFolderClash rest r = true := by
        rw [noFolderClash_iff] at hcl ⊢
        exact fun m cs0 hmem => hcl m cs0 (List.mem_cons_of_mem _ hmem)
      have hens : ensureFolder r n = r ++ [REntry.folder n []] := by
        simp [ensureFolder, hcl1]
      have hget : getFolderChildren (ensureFolder r n) n = [] := by
        rw [hens]
        exact getFolderChildren_append_new r n [] hcl1
      have hcs : uploadEntries cs (getFolderChildren (ensureFolder r n) n) =
          mirrorList cs := by
        have h5 := ihcs3 hwfcs (by rw [hget]; exact noFolderClash_nil cs)
        rw [hget] at h5
        rw [hget]
        simpa using h5
      have hset : setFolderChildren (ensureFolder r n) n (mirrorList cs) =
          r ++ [REntry.folder n (mirrorList cs)] := by
        rw [hens]
        exact setFolderChildren_append_new r n [] (mirrorList cs) hcl1
      have hclrest2 :
          noFolderClash rest (r ++ [REntry.folder n (mirrorList cs)]) = true := by
        rw [noFolderClash_iff]
        intro m cs0 hmem
        rw [containsFolder_append, Bool.or_eq_false_iff]
        refine ⟨(noFolderClash_iff _ _).mp hclrest m cs0 hmem, ?_⟩
        have hmn : (m == n) = false := (hasDirNamed_false_iff rest n).mp hdup m cs0 hmem
        have hnm : (n == m) = false := by
          cases hnm2 : (n == m)
          · rfl
          · have hEq : n = m := by simpa using hnm2
            subst hEq
            simp at hmn
        simp [containsFolder, isFolderNamed, hnm]
      rw [show uploadEntries (LEntry.dir n cs :: rest) r =
            uploadEntries rest (setFolderChildren (ensureFolder r n) n
              (uploadEntries cs (getFolderChildren (ensureFolder r n) n))) from by
          simp [uploadEntries]]
      rw [ihrest3 hwfrest (by rw [hcs, hset]; exact hclrest2)]
      rw [hcs, hset]
      simp [mirrorList, mirrorEntry]

/-- C6: recursive upload uploads each direct file into the current remote
parent and, per subdirectory, resolves-or-creates a same-named remote
subfolder (reusing an existing folder child — no create — else creating
it) and recurses with it as new parent; on full success into an empty
target folder the remote contents are the structural mirror of the local
tree. -/
theorem upload_directory_mirrors_local_tree :
    (∀ es : List LEntry, wfList es = true → uploadEntries es [] = mirrorList es) ∧
    (∀ (r : List REntry) (n : String),
      containsFolder r n = true → ensureFolder r n = r) := by
  constructor
  · intro es hwf
    simpa using uploadEntries_clash_free es [] hwf (noFolderClash_nil es)
  · intro r n h
    simp [ensureFolder, h]

/-- C6 witness: the spec's example — a local root holding a.txt and a subdirectory sub with b.txt yields
remote `a.txt` plus a subfolder `sub` containing `b.txt`; an existing
remote folder `sub` is reused as is. -/
theorem upload_directory_mirrors_local_tree_witness :
    uploadEntries [LEntry.file "a.txt", LEntry.dir "sub" [LEntry.file "b.txt"]] [] =
      [REntry.file "a.txt", REntry.folder "sub" [REntry.file "b.txt"]] ∧
    ensureFolder [REntry.folder "sub" []] "sub" = [REntry.folder "sub" []] := by
  constructor
  · have h := upload_directory_mirrors_local_tree.1
      [LEntry.file "a.txt", LEntry.dir "sub" [LEntry.file "b.txt"]]
      (by simp [wfList, hasDirNamed])
    rw [h]
    simp [mirrorList, mirrorEntry]
  · exact upload_directory_mirrors_local_tree.2 [REntry.folder "sub" []] "sub"
      (by simp [containsFolder, isFolderNamed])
